import Mathlib

/-!
Shallow embedding of the MQTT device-communication and automation engine of
the IoT-Management-System-for-Mushroom-Farm repository
(`flask_backend/mqtt_service.py`, with the data model of
`flask_backend/models.py`).

Modelling conventions:
* Sensor values and rule thresholds are rationals (`ℚ`), standing for the
  Python floats.
* Timestamps are natural numbers (an abstract epoch tick).  The Python code
  stores `datetime.fromisoformat(payload.get('timestamp', utcnow().isoformat()))`;
  for valid payloads this is the parsed payload timestamp when the key is
  present and the ingestion time otherwise, which is what the `Option ℕ`
  plus `getD` below expresses.
* A JSON body is a record of optional fields, mirroring Python `dict.get`
  returning `None` for absent keys.
* Database statuses are plain strings, as in `models.py`
  (`status = db.Column(db.String(30))`), because `_handle_status` writes an
  arbitrary payload-supplied string into `Command.status`.
-/

namespace MushroomFarm

/-- A device row (`models.Device`): identity plus liveness fields.
`farm_id` stands for the Python `device.room.farm_id` traversal. -/
structure Device where
  device_id : String
  room_id : String
  farm_id : String
  status : String
  last_seen : ℕ
  firmware_version : Option String
deriving Repr, DecidableEq

/-- A sensor reading row (`models.SensorData`) as created by
`MQTTService._handle_telemetry`. -/
structure SensorData where
  device_id : String
  room_id : String
  farm_id : String
  temperature_c : Option ℚ
  humidity_pct : Option ℚ
  co2_ppm : Option ℚ
  light_lux : Option ℚ
  substrate_moisture : Option ℚ
  battery_v : Option ℚ
  recorded_at : ℕ
deriving Repr, DecidableEq

/-- A command row (`models.Command`).  `status` is a string column with
default `'pending'` (comment in `models.py`: pending, sent, acked, failed). -/
structure Command where
  command_id : String
  device_id : String
  room_id : String
  farm_id : String
  command : String
  params : List (String × String)
  issued_by : Option String
  status : String
deriving Repr, DecidableEq

/-- The structured action of a rule, i.e. the result of
`json.loads(rule.action_command)` in `_execute_automation_action`;
`none` models a JSON decode failure (caught and dropped there). -/
structure ActionCommand where
  command : String
  params : List (String × String)
deriving Repr, DecidableEq

/-- An automation rule row (`models.AutomationRule`) as read by
`_check_automation_rules`. -/
structure AutomationRule where
  rule_id : String
  room_id : String
  parameter : String
  comparator : String
  threshold : ℚ
  action_device : String
  action_command : Option ActionCommand
  enabled : Bool
deriving Repr, DecidableEq

/-- The slice of the durable store touched by the MQTT service.
`next_cid` generates fresh command ids (the Python side uses UUIDs);
`notifications` counts the notification rows inserted. -/
structure Db where
  devices : List Device
  readings : List SensorData
  commands : List Command
  rules : List AutomationRule
  next_cid : ℕ
  notifications : ℕ
deriving Repr, DecidableEq

/-- A decoded JSON message body.  Both handlers read it through `dict.get`,
so one record of optional fields covers telemetry and status payloads. -/
structure Payload where
  temperature_c : Option ℚ
  humidity_pct : Option ℚ
  co2_ppm : Option ℚ
  light_lux : Option ℚ
  substrate_moisture : Option ℚ
  battery_v : Option ℚ
  timestamp : Option ℕ
  status : Option String
  firmware_version : Option String
  command_id : Option String
  ack_status : Option String
deriving Repr, DecidableEq

/-- The payload with every optional key absent. -/
def Payload.empty : Payload :=
  ⟨none, none, none, none, none, none, none, none, none, none, none⟩

/-- Broker-side environment of one `send_command` call: `self.connected`
and the outcome `result.rc == mqtt.MQTT_ERR_SUCCESS` of `client.publish`. -/
structure Env where
  connected : Bool
  publish_ok : Bool
deriving Repr, DecidableEq

/-! ## Rule engine (`_check_automation_rules`) -/

/-- The `if rule.parameter == ...` chain of `_check_automation_rules`
selecting `sensor_value` from the reading; any parameter outside the five
handled names (notably `battery`) leaves `sensor_value = None`. -/
def getSensorValue (parameter : String) (sd : SensorData) : Option ℚ :=
  if parameter == "temperature" then sd.temperature_c
  else if parameter == "humidity" then sd.humidity_pct
  else if parameter == "co2" then sd.co2_ppm
  else if parameter == "light" then sd.light_lux
  else if parameter == "substrate_moisture" then sd.substrate_moisture
  else none

/-- The `condition_met` chain of `_check_automation_rules`: the four
inequalities are exact and `==` is the tolerance test
`abs(sensor_value - rule.threshold) < 0.01`. -/
def conditionMet (comparator : String) (value threshold : ℚ) : Bool :=
  if comparator == "<" then value < threshold
  else if comparator == ">" then value > threshold
  else if comparator == "<=" then value ≤ threshold
  else if comparator == ">=" then value ≥ threshold
  else if comparator == "==" then |value - threshold| < 1 / 100
  else false

/-- Whether one rule fires on a reading: `continue` when the selected
sensor value is `None`, otherwise `condition_met`. -/
def ruleTriggers (rule : AutomationRule) (sd : SensorData) : Bool :=
  match getSensorValue rule.parameter sd with
  | none => false
  | some value => conditionMet rule.comparator value rule.threshold

/-- The snapshot taken by
`AutomationRule.query.filter_by(room_id=room_id, enabled=True).all()`. -/
def roomEnabledRules (db : Db) (room_id : String) : List AutomationRule :=
  db.rules.filter (fun r => r.room_id == room_id && r.enabled)

/-- The rules of a room that fire on a reading: the enabled snapshot
restricted to rules whose `condition_met` evaluates to true. -/
def triggeredRules (db : Db) (room_id : String) (sd : SensorData) : List AutomationRule :=
  (roomEnabledRules db room_id).filter (fun rule => ruleTriggers rule sd)

/-! ## Command dispatch (`send_command`) -/

/-- The fresh `command_id` of a new command record (a UUID in Python;
here a counter rendered to a string). -/
def freshCommandId (db : Db) : String := "cmd-" ++ toString db.next_cid

/-- The `Command(...)` record created by `send_command` before the publish
attempt: `status='pending'`, identity copied from the resolved device. -/
def pendingCommandRecord (db : Db) (device : Device) (device_id command : String)
    (params : List (String × String)) (issued_by : Option String) : Command :=
  ⟨freshCommandId db, device_id, device.room_id, device.farm_id, command, params,
   issued_by, "pending"⟩

/-- `MQTTService.send_command`: resolve the device (return `False` with no
record when absent), create a pending command record, then publish; the held
record's status becomes `'sent'` on publish success and `'failed'` on publish
failure or when the client is not connected.  The returned flag is the
synchronous result handed to the caller. -/
def send_command (env : Env) (db : Db) (device_id command : String)
    (params : List (String × String)) (issued_by : Option String) : Db × Bool :=
  match db.devices.find? (fun d => d.device_id == device_id) with
  | none => (db, false)
  | some device =>
    let rec0 := pendingCommandRecord db device device_id command params issued_by
    if env.connected then
      if env.publish_ok then
        ({ db with commands := db.commands ++ [{ rec0 with status := "sent" }],
                   next_cid := db.next_cid + 1 }, true)
      else
        ({ db with commands := db.commands ++ [{ rec0 with status := "failed" }],
                   next_cid := db.next_cid + 1 }, false)
    else
      ({ db with commands := db.commands ++ [{ rec0 with status := "failed" }],
                 next_cid := db.next_cid + 1 }, false)

/-- `MQTTService._execute_automation_action`: decode the rule's action
(JSON failure is caught and dropped), dispatch it with `issued_by=None`,
and insert a notification row when the dispatch reported success. -/
def execute_automation_action (env : Env) (db : Db) (rule : AutomationRule) : Db :=
  match rule.action_command with
  | none => db
  | some ac =>
    let out := send_command env db rule.action_device ac.command ac.params none
    if out.2 then { out.1 with notifications := out.1.notifications + 1 } else out.1

/-- `MQTTService._check_automation_rules`: iterate the enabled-rule snapshot
of the room and execute the action of every rule whose condition is met. -/
def check_automation_rules (env : Env) (db : Db) (room_id : String)
    (sd : SensorData) : Db :=
  (roomEnabledRules db room_id).foldl
    (fun acc rule => if ruleTriggers rule sd then execute_automation_action env acc rule else acc)
    db

/-! ## Inbound handlers -/

/-- Apply `f` to the first list element with the given `device_id`
(`Device.query.filter_by(device_id=...).first()` followed by attribute
assignment and commit). -/
def updateFirstDevice : List Device → String → (Device → Device) → List Device
  | [], _, _ => []
  | d :: ds, did, f =>
    if d.device_id == did then f d :: ds else d :: updateFirstDevice ds did f

/-- Apply `f` to the first list element with the given `command_id`
(`Command.query.filter_by(command_id=...).first()` followed by attribute
assignment and commit). -/
def updateFirstCommand : List Command → String → (Command → Command) → List Command
  | [], _, _ => []
  | c :: cs, cid, f =>
    if c.command_id == cid then f c :: cs else c :: updateFirstCommand cs cid f

/-- The command row a status message correlates to:
`Command.query.filter_by(command_id=cid).first()`. -/
def findCommand (db : Db) (cid : String) : Option Command :=
  db.commands.find? (fun c => c.command_id == cid)

/-- The reading row built by `_handle_telemetry`: every sensor field comes
from `payload.get(...)` and `recorded_at` is the payload timestamp when
present, else the ingestion time (`datetime.utcnow()`). -/
def telemetryReading (now : ℕ) (farm_id room_id device_id : String)
    (p : Payload) : SensorData :=
  ⟨device_id, room_id, farm_id, p.temperature_c, p.humidity_pct, p.co2_ppm,
   p.light_lux, p.substrate_moisture, p.battery_v, p.timestamp.getD now⟩

/-- `MQTTService._handle_telemetry`: drop the message when the device is
unknown; otherwise update device liveness, persist the reading, and run the
automation rules of the room against it. -/
def handle_telemetry (env : Env) (db : Db) (now : ℕ)
    (farm_id room_id device_id : String) (p : Payload) : Db :=
  match db.devices.find? (fun d => d.device_id == device_id) with
  | none => db
  | some _ =>
    let sd := telemetryReading now farm_id room_id device_id p
    let db1 : Db :=
      { db with
        devices := updateFirstDevice db.devices device_id
          (fun d => { d with last_seen := now, status := "online" }),
        readings := db.readings ++ [sd] }
    check_automation_rules env db1 room_id sd

/-- `MQTTService._handle_status`: update the sending device's liveness and
firmware when the device is known, then, when the payload carries a
`command_id` matching a command, set that command's status to the payload's
`ack_status`, defaulting to `'acked'`.  Note the Python code performs this
write unconditionally: it does not check the command's current status. -/
def handle_status (db : Db) (now : ℕ)
    (farm_id room_id device_id : String) (p : Payload) : Db :=
  let db1 : Db :=
    match db.devices.find? (fun d => d.device_id == device_id) with
    | none => db
    | some _ =>
      { db with
        devices := updateFirstDevice db.devices device_id
          (fun d =>
            { d with
              last_seen := now,
              status := p.status.getD "online",
              firmware_version :=
                match p.firmware_version with
                | some fv => some fv
                | none => d.firmware_version }) }
  match p.command_id with
  | none => db1
  | some cid =>
    { db1 with
      commands := updateFirstCommand db1.commands cid
        (fun c => { c with status := p.ack_status.getD "acked" }) }

/-! ## Topic routing (`_on_message`) -/

/-- Character-level splitter with the semantics of Python `str.split('/')`:
adjacent separators yield empty segments and the empty suffix after a
trailing separator is kept. -/
def splitSlashAux : List Char → List Char → List String
  | [], acc => [String.mk acc.reverse]
  | c :: cs, acc =>
    if c = '/' then String.mk acc.reverse :: splitSlashAux cs []
    else splitSlashAux cs (c :: acc)

/-- `topic.split('/')` of `_on_message`. -/
def topicSplit (topic : String) : List String := splitSlashAux topic.data []

/-- `MQTTService._on_message`: JSON decode failures (`body = none`) are
logged and dropped; a topic with at least 6 `/`-separated segments is read
positionally (`farm_id = parts[1]`, `room_id = parts[3]`,
`device_id = parts[5]`, kind `= parts[6]` when present, else `'unknown'`)
and dispatched on the kind; anything shorter is logged and dropped. -/
def on_message (env : Env) (db : Db) (now : ℕ) (topic : String)
    (body : Option Payload) : Db :=
  match body with
  | none => db
  | some p =>
    let parts := topicSplit topic
    if parts.length ≥ 6 then
      let farm_id := parts.getD 1 ""
      let room_id := parts.getD 3 ""
      let device_id := parts.getD 5 ""
      let message_type := if parts.length > 6 then parts.getD 6 "" else "unknown"
      if message_type == "telemetry" then
        handle_telemetry env db now farm_id room_id device_id p
      else if message_type == "status" then
        handle_status db now farm_id room_id device_id p
      else db
    else db

/-! ## Broker connection state machine (`_connect_loop`, `_on_connect`,
`_on_disconnect`) -/

/-- `min(self.reconnect_delay * (2 ** self.reconnect_attempts), self.max_reconnect_delay)`
with the constructor defaults `reconnect_delay = 5`,
`max_reconnect_delay = 300`. -/
def backoffDelay (attempts : ℕ) : ℕ := min (5 * 2 ^ attempts) 300

/-- The connection-relevant mutable fields of `MQTTService`. -/
structure ConnState where
  connected : Bool
  reconnect_attempts : ℕ
deriving Repr, DecidableEq

/-- Connection events: an exception in `_connect_loop`, the `_on_connect`
callback with `rc == 0` or `rc != 0`, and the `_on_disconnect` callback. -/
inductive ConnEvent
  | ioFailure
  | connectAck
  | connectNack
  | dropped
deriving Repr, DecidableEq

/-- One transition of the connection machine, returning the reconnect delay
slept when the event is an I/O failure: the delay uses the current attempt
counter, which is then incremented; a successful connect resets the counter
to 0. -/
def connStep : ConnState → ConnEvent → ConnState × Option ℕ
  | s, .ioFailure =>
    (⟨false, s.reconnect_attempts + 1⟩, some (backoffDelay s.reconnect_attempts))
  | _, .connectAck => (⟨true, 0⟩, none)
  | s, .connectNack => (⟨false, s.reconnect_attempts⟩, none)
  | s, .dropped => (⟨false, s.reconnect_attempts⟩, none)

/-- A run of `k` consecutive connection failures: the final state and the
list of delays slept, in order. -/
def runFailures : ConnState → ℕ → ConnState × List ℕ
  | s, 0 => (s, [])
  | s, k + 1 =>
    let step := connStep s .ioFailure
    let rest := runFailures step.1 k
    (rest.1, step.2.toList ++ rest.2)

/-! ## Whole-engine step -/

/-- An external event of the engine: an inbound broker message, or mere
passage of wall-clock time with no message. -/
inductive SysEvent
  | inbound (now : ℕ) (topic : String) (body : Option Payload)
  | timePasses (seconds : ℕ)

/-- One engine step over the store.  The `timePasses` branch records a fact
of the repository: no scheduled job, timer, or background loop mutates
`Command` rows — commands are written only inside `_handle_status` and
`send_command`, and the periodic celery tasks in `tasks.py` touch sensor
data, notifications and recommendations only.  Passage of time therefore
leaves the store unchanged. -/
def sysStep (env : Env) (db : Db) : SysEvent → Db
  | .inbound now topic body => on_message env db now topic body
  | .timePasses _ => db

/-- Run the engine over a list of events. -/
def sysRun (env : Env) : Db → List SysEvent → Db
  | db, [] => db
  | db, e :: es => sysRun env (sysStep env db e) es

/-! ## Concrete fixtures used by witnesses and counterexamples -/

/-- A registered device. -/
def sampleDevice : Device := ⟨"dev1", "room1", "farm1", "offline", 0, none⟩

/-- A store holding one registered device and nothing else. -/
def sampleDb : Db := ⟨[sampleDevice], [], [], [], 0, 0⟩

/-- A registered device whose id appears in the malformed-topic scenario. -/
def deviceXyz : Device := ⟨"xyz", "room1", "farm1", "offline", 0, none⟩

/-- A store holding only `deviceXyz`. -/
def dbXyz : Db := ⟨[deviceXyz], [], [], [], 0, 0⟩

/-- A connected broker whose publishes succeed. -/
def envUp : Env := ⟨true, true⟩

/-- A telemetry body carrying only a temperature. -/
def telem20 : Payload := { Payload.empty with temperature_c := some 20 }

/-- A status body acknowledging command `cmd-0` (no `ack_status` key). -/
def ackPayload : Payload := { Payload.empty with command_id := some "cmd-0" }

/-- A status body resetting command `cmd-0` to `pending`. -/
def pendingPayload : Payload :=
  { Payload.empty with command_id := some "cmd-0", ack_status := some "pending" }

/-- A status body declaring failure of command `cmd-0`. -/
def failPayload : Payload :=
  { Payload.empty with command_id := some "cmd-0", ack_status := some "failed" }

/-- The store after dispatching one command to `dev1` over a healthy broker:
command `cmd-0` is in status `sent`. -/
def dbSent : Db := (send_command envUp sampleDb "dev1" "fan_on" [] (some "user1")).1

/-- `dbSent` after the device acknowledged `cmd-0`. -/
def dbAcked : Db := handle_status dbSent 10 "farm1" "room1" "dev1" ackPayload

/-- The command record held in `dbSent`. -/
def sentRec : Command :=
  ⟨"cmd-0", "dev1", "room1", "farm1", "fan_on", [], some "user1", "sent"⟩

/-- An enabled `temperature > 28` rule of `room1` acting on `dev1`. -/
def rule6 : AutomationRule :=
  ⟨"rule-6", "room1", "temperature", ">", 28, "dev1", some ⟨"fan_on", []⟩, true⟩

/-- A store holding the registered device and the temperature rule. -/
def db6 : Db := ⟨[sampleDevice], [], [], [rule6], 0, 0⟩

/-- A reading of `room1` with temperature 30. -/
def sd6 : SensorData :=
  ⟨"dev1", "room1", "farm1", some 30, none, none, none, none, none, 5⟩

/-- An enabled rule on the unhandled parameter `battery`. -/
def batteryRule : AutomationRule :=
  ⟨"rule-bat", "room1", "battery", ">", 1, "dev1", some ⟨"fan_on", []⟩, true⟩

/-- A reading whose only non-null field is `battery_v`. -/
def batterySd : SensorData :=
  ⟨"dev1", "room1", "farm1", none, none, none, none, none, some 4, 5⟩

/-! ## Helper lemmas -/

theorem findCommand_updateFirst (cs : List Command) (cid st : String) :
    List.find? (fun c => c.command_id == cid)
        (updateFirstCommand cs cid (fun c => { c with status := st }))
      = (List.find? (fun c => c.command_id == cid) cs).map
          (fun c => { c with status := st }) := by
  induction cs with
  | nil => rfl
  | cons c cs ih =>
    cases h : (c.command_id == cid) with
    | true =>
      have h2 : (({ c with status := st } : Command).command_id == cid) = true := h
      rw [updateFirstCommand, if_pos h,
        @List.find?_cons_of_pos Command (fun x => x.command_id == cid)
          ({ c with status := st }) cs h2,
        @List.find?_cons_of_pos Command (fun x => x.command_id == cid) c cs h]
      rfl
    | false =>
      rw [updateFirstCommand, if_neg (by simp [h]), List.find?_cons_of_neg _ (by simp [h]),
        List.find?_cons_of_neg _ (by simp [h]), ih]

theorem handle_status_commands (db : Db) (now : ℕ)
    (farm_id room_id device_id : String) (p : Payload) :
    (handle_status db now farm_id room_id device_id p).commands =
      match p.command_id with
      | none => db.commands
      | some cid =>
        updateFirstCommand db.commands cid
          (fun c => { c with status := p.ack_status.getD "acked" }) := by
  unfold handle_status
  cases db.devices.find? (fun d => d.device_id == device_id) <;>
    cases p.command_id <;> rfl

theorem handle_status_findCommand (db : Db) (now : ℕ)
    (farm_id room_id device_id : String) (p : Payload) (cid : String)
    (hcid : p.command_id = some cid) :
    findCommand (handle_status db now farm_id room_id device_id p) cid
      = (findCommand db cid).map
          (fun c => { c with status := p.ack_status.getD "acked" }) := by
  unfold findCommand
  rw [handle_status_commands, hcid]
  exact findCommand_updateFirst db.commands cid (p.ack_status.getD "acked")

theorem send_command_readings (env : Env) (db : Db) (device_id command : String)
    (params : List (String × String)) (issued_by : Option String) :
    (send_command env db device_id command params issued_by).1.readings = db.readings := by
  unfold send_command
  cases db.devices.find? (fun d => d.device_id == device_id) with
  | none => rfl
  | some device =>
    cases hc : env.connected <;> cases hp : env.publish_ok <;> simp [hc, hp]

theorem execute_automation_action_readings (env : Env) (db : Db)
    (rule : AutomationRule) :
    (execute_automation_action env db rule).readings = db.readings := by
  unfold execute_automation_action
  cases rule.action_command with
  | none => rfl
  | some ac =>
    cases h : (send_command env db rule.action_device ac.command ac.params none).2 <;>
      simp [h, send_command_readings]

theorem foldl_rules_readings (env : Env) (sd : SensorData) :
    ∀ (rs : List AutomationRule) (db : Db),
      (rs.foldl
        (fun acc rule =>
          if ruleTriggers rule sd then execute_automation_action env acc rule else acc)
        db).readings = db.readings := by
  intro rs
  induction rs with
  | nil => intro db; rfl
  | cons r rs ih =>
    intro db
    rw [List.foldl_cons, ih]
    by_cases h : ruleTriggers r sd = true
    · rw [if_pos h, execute_automation_action_readings]
    · rw [if_neg h]

theorem check_automation_rules_readings (env : Env) (db : Db) (room_id : String)
    (sd : SensorData) :
    (check_automation_rules env db room_id sd).readings = db.readings := by
  unfold check_automation_rules
  exact foldl_rules_readings env sd (roomEnabledRules db room_id) db

theorem foldl_ite_filter {α β : Type} (q : α → Bool) (f : β → α → β) :
    ∀ (l : List α) (b : β),
      (l.filter q).foldl f b = l.foldl (fun acc a => if q a then f acc a else acc) b := by
  intro l
  induction l with
  | nil => intro b; rfl
  | cons a l ih =>
    intro b
    by_cases h : q a = true
    · rw [List.filter_cons_of_pos h, List.foldl_cons, List.foldl_cons, if_pos h, ih]
    · rw [List.filter_cons_of_neg (by simpa using h), List.foldl_cons, if_neg h, ih]

theorem runFailures_delays :
    ∀ (k : ℕ) (s : ConnState) (n : ℕ), n < k →
      (runFailures s k).2[n]? = some (backoffDelay (s.reconnect_attempts + n)) := by
  intro k
  induction k with
  | zero => intro s n h; omega
  | succ k ih =>
    intro s n h
    cases n with
    | zero =>
      simp [runFailures, connStep]
    | succ n =>
      have : (runFailures s (k + 1)).2 =
          backoffDelay s.reconnect_attempts ::
            (runFailures ⟨false, s.reconnect_attempts + 1⟩ k).2 := rfl
      rw [this, List.getElem?_cons_succ, ih ⟨false, s.reconnect_attempts + 1⟩ n (by omega)]
      have harg : s.reconnect_attempts + 1 + n = s.reconnect_attempts + (n + 1) := by omega
      rw [show (⟨false, s.reconnect_attempts + 1⟩ : ConnState).reconnect_attempts
            = s.reconnect_attempts + 1 from rfl, harg]

/-! ## Claims -/

/-- C1 (amended): the command lifecycle is not enforced to be monotonic.
For every inbound status message whose `command_id` matches an existing
command, `_handle_status` sets that command's status to the payload's
`ack_status` (default `'acked'`) unconditionally — regardless of the
command's current status — so terminal states can be overwritten and the
status can return to `pending`. -/
theorem c1_status_write_unconditional (db : Db) (now : ℕ)
    (farm_id room_id device_id : String) (p : Payload) (cid : String)
    (hcid : p.command_id = some cid) :
    findCommand (handle_status db now farm_id room_id device_id p) cid
      = (findCommand db cid).map
          (fun c => { c with status := p.ack_status.getD "acked" }) :=
  handle_status_findCommand db now farm_id room_id device_id p cid hcid

/-- C1 counterexample: a concrete run reaching `pending → sent → acked`
and then, by a further status message carrying `ack_status = "pending"`,
back to `pending`: the terminal state `acked` is mutated and `pending` is
revisited, refuting the claimed monotone lifecycle. -/
theorem c1_counterexample :
    (findCommand dbSent "cmd-0").map Command.status = some "sent"
    ∧ (findCommand dbAcked "cmd-0").map Command.status = some "acked"
    ∧ (findCommand (handle_status dbAcked 11 "farm1" "room1" "dev1" pendingPayload)
        "cmd-0").map Command.status = some "pending" := by
  decide

/-- C1 witness: the amended theorem applied to the concrete acknowledgment
of the freshly sent command `cmd-0`. -/
theorem c1_witness :
    ackPayload.command_id = some "cmd-0"
    ∧ findCommand (handle_status dbSent 10 "farm1" "room1" "dev1" ackPayload) "cmd-0"
        = (findCommand dbSent "cmd-0").map
            (fun c => { c with status := ackPayload.ack_status.getD "acked" }) :=
  ⟨rfl, c1_status_write_unconditional dbSent 10 "farm1" "room1" "dev1" ackPayload "cmd-0" rfl⟩

/-- C2 (amended): on an inbound status message whose `command_id` matches an
existing command, the handler sets that command's status to the payload's
`ack_status`, defaulting to `'acked'`, regardless of the command's current
status; a repetition of the identical message rewrites the same value, so
repeating it leaves the correlated command unchanged.  (The code has no
`sent`-guard: a command that is not `sent` is overwritten all the same.) -/
theorem c2_ack_handling (db : Db) (now now2 : ℕ)
    (f r d f2 r2 d2 : String) (p : Payload) (cid : String) (c : Command)
    (hcid : p.command_id = some cid) (hfind : findCommand db cid = some c) :
    (p.ack_status = none →
        findCommand (handle_status db now f r d p) cid = some { c with status := "acked" })
    ∧ (∀ s, p.ack_status = some s →
        findCommand (handle_status db now f r d p) cid = some { c with status := s })
    ∧ findCommand (handle_status (handle_status db now f r d p) now2 f2 r2 d2 p) cid
        = findCommand (handle_status db now f r d p) cid := by
  refine ⟨?_, ?_, ?_⟩
  · intro hnone
    rw [handle_status_findCommand db now f r d p cid hcid, hfind, hnone]
    rfl
  · intro s hs
    rw [handle_status_findCommand db now f r d p cid hcid, hfind, hs]
    rfl
  · rw [handle_status_findCommand (handle_status db now f r d p) now2 f2 r2 d2 p cid hcid,
      handle_status_findCommand db now f r d p cid hcid]
    cases findCommand db cid <;> rfl

/-- C2 counterexample: the claim's `if the command is not in sent, the
message leaves the command's status unchanged` is false: command `cmd-0` is
already terminal (`acked`), yet a status message declaring failure moves it
to `failed`. -/
theorem c2_counterexample :
    (findCommand dbAcked "cmd-0").map Command.status = some "acked"
    ∧ (findCommand (handle_status dbAcked 12 "farm1" "room1" "dev1" failPayload)
        "cmd-0").map Command.status = some "failed" := by
  decide

/-- C2 witness: the amended theorem applied to the sent command `cmd-0` and
the concrete acknowledgment payload. -/
theorem c2_witness :
    (ackPayload.command_id = some "cmd-0" ∧ findCommand dbSent "cmd-0" = some sentRec)
    ∧ ((ackPayload.ack_status = none →
          findCommand (handle_status dbSent 10 "farm1" "room1" "dev1" ackPayload) "cmd-0"
            = some { sentRec with status := "acked" })
       ∧ (∀ s, ackPayload.ack_status = some s →
          findCommand (handle_status dbSent 10 "farm1" "room1" "dev1" ackPayload) "cmd-0"
            = some { sentRec with status := s })
       ∧ findCommand
            (handle_status (handle_status dbSent 10 "farm1" "room1" "dev1" ackPayload)
              10 "farm1" "room1" "dev1" ackPayload) "cmd-0"
          = findCommand (handle_status dbSent 10 "farm1" "room1" "dev1" ackPayload) "cmd-0") :=
  ⟨⟨rfl, by decide⟩,
   c2_ack_handling dbSent 10 10 "farm1" "room1" "dev1" "farm1" "room1" "dev1"
     ackPayload "cmd-0" sentRec rfl (by decide)⟩

/-- C3 (amended): the engine has no time-driven acknowledgment sweep.
Over any sequence of events consisting only of time passage (no inbound
messages), the store — and in particular every `sent` command — is
unchanged: commands are mutated only by `_handle_status` and
`send_command`, never by a timer. -/
theorem c3_no_time_driven_sweep (env : Env) (db : Db) (events : List SysEvent)
    (h : ∀ e ∈ events, ∃ t, e = SysEvent.timePasses t) :
    sysRun env db events = db := by
  induction events generalizing db with
  | nil => rfl
  | cons e es ih =>
    obtain ⟨t, rfl⟩ := h e (List.mem_cons_self e es)
    exact ih db (fun e he => h e (List.mem_cons_of_mem _ he))

/-- C3 counterexample: command `cmd-0` is `sent`; an hour of wall-clock
time passes with no inbound message (far beyond the 60-second ack timeout
the claim mentions), and the command is still `sent`, not `failed` — no
periodic sweep exists. -/
theorem c3_counterexample :
    (findCommand dbSent "cmd-0").map Command.status = some "sent"
    ∧ (findCommand (sysRun envUp dbSent [SysEvent.timePasses 3600])
        "cmd-0").map Command.status = some "sent" := by
  decide

/-- C3 witness: the amended theorem applied to a concrete pure-time trace
over the store holding the sent command. -/
theorem c3_witness :
    (∀ e ∈ [SysEvent.timePasses 60, SysEvent.timePasses 3600],
        ∃ t, e = SysEvent.timePasses t)
    ∧ sysRun envUp dbSent [SysEvent.timePasses 60, SysEvent.timePasses 3600] = dbSent := by
  have h : ∀ e ∈ [SysEvent.timePasses 60, SysEvent.timePasses 3600],
      ∃ t, e = SysEvent.timePasses t := by
    intro e he
    rcases List.mem_cons.mp he with rfl | he2
    · exact ⟨60, rfl⟩
    rcases List.mem_cons.mp he2 with rfl | he3
    · exact ⟨3600, rfl⟩
    · exact absurd he3 (List.not_mem_nil e)
  exact ⟨h, c3_no_time_driven_sweep envUp dbSent _ h⟩

/-- C4 (amended): `_on_message` drops undecodable bodies and topics with
fewer than six `/`-separated segments, but performs no emptiness check on
the ID segments: the topic `farm/abc/room//device/xyz/telemetry` (empty
room segment) is dispatched to the telemetry handler with `room_id = ""`
rather than being rejected.  (The ingestion path still cannot crash: the
handlers are total.) -/
theorem c4_topic_validation (env : Env) (db : Db) (now : ℕ) (topic : String)
    (body : Option Payload) (p : Payload) :
    ((topicSplit topic).length < 6 → on_message env db now topic body = db)
    ∧ on_message env db now topic none = db
    ∧ on_message env db now "farm/abc/room//device/xyz/telemetry" (some p)
        = handle_telemetry env db now "abc" "" "xyz" p := by
  refine ⟨?_, rfl, rfl⟩
  intro h
  cases body with
  | none => rfl
  | some q =>
    simp only [on_message]
    rw [if_neg (by omega)]

/-- C4 counterexample: with device `xyz` registered, the empty-room-segment
topic of the claim is not dropped: it produces exactly the reading
`room_id = ""`, `farm_id = "abc"` — a Reading is persisted and the handler
was invoked, refuting the claimed `MalformedTopic` rejection. -/
theorem c4_counterexample :
    (on_message envUp dbXyz 7 "farm/abc/room//device/xyz/telemetry"
        (some telem20)).readings
      = [⟨"xyz", "", "abc", some 20, none, none, none, none, none, 7⟩] := by
  decide

/-- C4 witness: the amended theorem applied to a five-segment topic, which
is dropped. -/
theorem c4_witness :
    (topicSplit "farm/a/room/b").length < 6
    ∧ on_message envUp sampleDb 3 "farm/a/room/b" (some telem20) = sampleDb :=
  ⟨by decide,
   (c4_topic_validation envUp sampleDb 3 "farm/a/room/b" (some telem20) telem20).1
     (by decide)⟩

/-- C5: starting with a reset attempt counter, the `n`-th delay of a run of
consecutive connection failures is `min(5 * 2^n, 300)` seconds; a successful
connect resets the counter to `0`, so the next failure sleeps 5 seconds
again. -/
theorem c5_reconnect_backoff (k n : ℕ) (s : ConnState) (h : n < k) :
    (runFailures ⟨false, 0⟩ k).2[n]? = some (min (5 * 2 ^ n) 300)
    ∧ connStep s .connectAck = (⟨true, 0⟩, none)
    ∧ (connStep (connStep s .connectAck).1 .ioFailure).2 = some 5 := by
  refine ⟨?_, rfl, rfl⟩
  rw [runFailures_delays k ⟨false, 0⟩ n h]
  congr 1
  simp [backoffDelay]

/-- C5 witness: the 8th delay (index 7) of a 9-failure run is capped at
300 seconds: `min (5 * 2^7) 300 = 300`. -/
theorem c5_witness :
    7 < 9
    ∧ ((runFailures ⟨false, 0⟩ 9).2[7]? = some (min (5 * 2 ^ 7) 300)
       ∧ connStep ⟨true, 4⟩ .connectAck = (⟨true, 0⟩, none)
       ∧ (connStep (connStep ⟨true, 4⟩ .connectAck).1 .ioFailure).2 = some 5) :=
  ⟨by decide, c5_reconnect_backoff 9 7 ⟨true, 4⟩ (by decide)⟩

/-- C6: rule evaluation for an enabled rule of the room: a `None` sensor
value skips the rule; otherwise the rule fires exactly once for the reading
iff `condition_met` holds, where the four inequalities are exact and `==`
means `|value - threshold| < 1/100`; in particular for comparator `>` and
threshold `t`, value `t + e` (`e > 0`) satisfies the condition and `t - e`
does not.  Executed actions are exactly one per triggered rule. -/
theorem c6_rule_evaluation (db : Db) (room_id : String) (sd : SensorData)
    (rule : AutomationRule) (env : Env)
    (hroom : rule.room_id = room_id) (hen : rule.enabled = true)
    (hcount : List.count rule db.rules = 1) :
    (getSensorValue rule.parameter sd = none →
        List.count rule (triggeredRules db room_id sd) = 0)
    ∧ (∀ v, getSensorValue rule.parameter sd = some v →
        List.count rule (triggeredRules db room_id sd)
          = if conditionMet rule.comparator v rule.threshold then 1 else 0)
    ∧ (∀ v t : ℚ,
        conditionMet "<" v t = decide (v < t)
        ∧ conditionMet ">" v t = decide (v > t)
        ∧ conditionMet "<=" v t = decide (v ≤ t)
        ∧ conditionMet ">=" v t = decide (v ≥ t)
        ∧ conditionMet "==" v t = decide (|v - t| < 1 / 100))
    ∧ (∀ t e : ℚ, 0 < e →
        conditionMet ">" (t + e) t = true ∧ conditionMet ">" (t - e) t = false)
    ∧ check_automation_rules env db room_id sd
        = (triggeredRules db room_id sd).foldl
            (fun acc r => execute_automation_action env acc r) db := by
  have hmem : (rule.room_id == room_id && rule.enabled) = true := by
    simp [hroom, hen]
  refine ⟨?_, ?_, ?_, ?_, ?_⟩
  · intro hv
    have hnt : ruleTriggers rule sd = false := by
      unfold ruleTriggers
      rw [hv]
    rw [List.count_eq_zero]
    intro hin
    unfold triggeredRules at hin
    have := (List.mem_filter.mp hin).2
    rw [hnt] at this
    cases this
  · intro v hv
    have htr : ruleTriggers rule sd = conditionMet rule.comparator v rule.threshold := by
      unfold ruleTriggers
      rw [hv]
    cases hcond : conditionMet rule.comparator v rule.threshold with
    | true =>
      rw [if_pos rfl]
      unfold triggeredRules roomEnabledRules
      rw [@List.count_filter AutomationRule _ _ (fun r => ruleTriggers r sd) rule
          (List.filter (fun r => r.room_id == room_id && r.enabled) db.rules)
          (show ruleTriggers rule sd = true by rw [htr, hcond]),
        @List.count_filter AutomationRule _ _ (fun r => r.room_id == room_id && r.enabled)
          rule db.rules hmem]
      exact hcount
    | false =>
      rw [if_neg Bool.false_ne_true]
      rw [List.count_eq_zero]
      intro hin
      unfold triggeredRules at hin
      have := (List.mem_filter.mp hin).2
      rw [htr, hcond] at this
      cases this
  · intro v t
    exact ⟨rfl, rfl, rfl, rfl, rfl⟩
  · intro t e he
    constructor
    · rw [show conditionMet ">" (t + e) t = decide (t + e > t) from rfl,
        decide_eq_true_eq]
      linarith
    · rw [show conditionMet ">" (t - e) t = decide (t - e > t) from rfl]
      simp only [decide_eq_false_iff_not]
      intro hgt
      linarith
  · unfold check_automation_rules triggeredRules
    exact (foldl_ite_filter (fun r => ruleTriggers r sd)
      (fun acc r => execute_automation_action env acc r)
      (roomEnabledRules db room_id) db).symm

/-- C6 witness: the rule `temperature > 28` on a reading of `30` fires
exactly once. -/
theorem c6_witness :
    (rule6.room_id = "room1" ∧ rule6.enabled = true
      ∧ List.count rule6 db6.rules = 1
      ∧ getSensorValue rule6.parameter sd6 = some 30)
    ∧ List.count rule6 (triggeredRules db6 "room1" sd6)
        = if conditionMet rule6.comparator 30 rule6.threshold then 1 else 0 :=
  ⟨⟨rfl, rfl, by decide, by decide⟩,
   (c6_rule_evaluation db6 "room1" sd6 rule6 envUp rfl rfl (by decide)).2.1 30 (by decide)⟩

/-- C7: `send_command` returns failure and writes nothing when the device
is unknown; otherwise it creates exactly one command record, built in
status `pending`, whose stored status becomes `sent` exactly when the
broker is connected and the publish succeeds (and `failed` otherwise), and
the synchronous boolean result equals that publish outcome and nothing
else. -/
theorem c7_send_command_contract (env : Env) (db : Db)
    (device_id command : String) (params : List (String × String))
    (issued_by : Option String) :
    (db.devices.find? (fun d => d.device_id == device_id) = none →
        send_command env db device_id command params issued_by = (db, false))
    ∧ (∀ device, db.devices.find? (fun d => d.device_id == device_id) = some device →
        (pendingCommandRecord db device device_id command params issued_by).status
            = "pending"
        ∧ send_command env db device_id command params issued_by =
            ({ db with
               commands := db.commands ++
                 [{ pendingCommandRecord db device device_id command params issued_by with
                    status := if env.connected && env.publish_ok then "sent" else "failed" }],
               next_cid := db.next_cid + 1 },
             env.connected && env.publish_ok)) := by
  constructor
  · intro h
    unfold send_command
    rw [h]
  · intro device h
    refine ⟨rfl, ?_⟩
    unfold send_command
    rw [h]
    cases hc : env.connected <;> cases hp : env.publish_ok <;> simp [hc, hp]

/-- C7 witness: dispatch to the registered device over a healthy broker:
the record is created pending and stored as `sent`, and the call returns
success. -/
theorem c7_witness :
    sampleDb.devices.find? (fun d => d.device_id == "dev1") = some sampleDevice
    ∧ ((pendingCommandRecord sampleDb sampleDevice "dev1" "fan_on" [] (some "user1")).status
          = "pending"
       ∧ send_command envUp sampleDb "dev1" "fan_on" [] (some "user1") =
           ({ sampleDb with
              commands := sampleDb.commands ++
                [{ pendingCommandRecord sampleDb sampleDevice "dev1" "fan_on" [] (some "user1") with
                   status := if envUp.connected && envUp.publish_ok then "sent" else "failed" }],
              next_cid := sampleDb.next_cid + 1 },
            envUp.connected && envUp.publish_ok)) :=
  ⟨by decide,
   (c7_send_command_contract envUp sampleDb "dev1" "fan_on" [] (some "user1")).2
     sampleDevice (by decide)⟩

/-- C8: for every telemetry payload ingested for a known device, exactly
one Reading is appended, and its `recorded_at` is the payload timestamp
when present and the ingestion time otherwise. -/
theorem c8_recorded_at (env : Env) (db : Db) (now : ℕ)
    (farm_id room_id device_id : String) (p : Payload) (device : Device)
    (hdev : db.devices.find? (fun d => d.device_id == device_id) = some device) :
    (handle_telemetry env db now farm_id room_id device_id p).readings
      = db.readings ++ [telemetryReading now farm_id room_id device_id p]
    ∧ (∀ ts, p.timestamp = some ts →
        (telemetryReading now farm_id room_id device_id p).recorded_at = ts)
    ∧ (p.timestamp = none →
        (telemetryReading now farm_id room_id device_id p).recorded_at = now) := by
  refine ⟨?_, ?_, ?_⟩
  · unfold handle_telemetry
    rw [hdev]
    rw [check_automation_rules_readings]
  · intro ts hts
    simp [telemetryReading, hts]
  · intro hts
    simp [telemetryReading, hts]

/-- C8 witness: a telemetry body with no timestamp ingested at tick 7 for
the registered device produces one reading recorded at 7. -/
theorem c8_witness :
    sampleDb.devices.find? (fun d => d.device_id == "dev1") = some sampleDevice
    ∧ telem20.timestamp = none
    ∧ ((handle_telemetry envUp sampleDb 7 "farm1" "room1" "dev1" telem20).readings
         = sampleDb.readings ++ [telemetryReading 7 "farm1" "room1" "dev1" telem20]
       ∧ (telemetryReading 7 "farm1" "room1" "dev1" telem20).recorded_at = 7) := by
  have h := c8_recorded_at envUp sampleDb 7 "farm1" "room1" "dev1" telem20
    sampleDevice (by decide)
  exact ⟨by decide, rfl, h.1, h.2.2 rfl⟩

/-- C9: a rule whose parameter is outside the five handled names
(`temperature`, `humidity`, `co2`, `light`, `substrate_moisture`) — notably
`battery` — always reads a `None` sensor value and never triggers, whatever
the reading carries (including a non-null `battery_v`). -/
theorem c9_unhandled_parameter_never_triggers (rule : AutomationRule)
    (sd : SensorData)
    (h1 : rule.parameter ≠ "temperature") (h2 : rule.parameter ≠ "humidity")
    (h3 : rule.parameter ≠ "co2") (h4 : rule.parameter ≠ "light")
    (h5 : rule.parameter ≠ "substrate_moisture") :
    getSensorValue rule.parameter sd = none ∧ ruleTriggers rule sd = false := by
  have hv : getSensorValue rule.parameter sd = none := by
    simp [getSensorValue, h1, h2, h3, h4, h5]
  refine ⟨hv, ?_⟩
  unfold ruleTriggers
  rw [hv]

/-- C9 witness: a `battery > 1` rule never fires even on a reading whose
`battery_v` is 4. -/
theorem c9_witness :
    (batteryRule.parameter ≠ "temperature" ∧ batteryRule.parameter ≠ "humidity"
      ∧ batteryRule.parameter ≠ "co2" ∧ batteryRule.parameter ≠ "light"
      ∧ batteryRule.parameter ≠ "substrate_moisture"
      ∧ batterySd.battery_v = some 4)
    ∧ (getSensorValue batteryRule.parameter batterySd = none
       ∧ ruleTriggers batteryRule batterySd = false) :=
  ⟨⟨by decide, by decide, by decide, by decide, by decide, rfl⟩,
   c9_unhandled_parameter_never_triggers batteryRule batterySd
     (by decide) (by decide) (by decide) (by decide) (by decide)⟩

/-- C10: acknowledgment correlation uses the `command_id` alone.  The
commands table after `_handle_status` is identical whatever farm, room or
device the topic named, and a matching `command_id` is updated without any
check of the sender against the command's owning device. -/
theorem c10_correlation_by_command_id_only (db : Db) (now : ℕ)
    (f1 r1 d1 f2 r2 d2 : String) (p : Payload) :
    (handle_status db now f1 r1 d1 p).commands = (handle_status db now f2 r2 d2 p).commands
    ∧ (∀ cid, p.command_id = some cid →
        findCommand (handle_status db now f1 r1 d1 p) cid
          = (findCommand db cid).map
              (fun c => { c with status := p.ack_status.getD "acked" })) := by
  constructor
  · rw [handle_status_commands, handle_status_commands]
  · intro cid hcid
    exact handle_status_findCommand db now f1 r1 d1 p cid hcid

/-- C10 witness: the ack for `cmd-0` (owned by `dev1`) arriving on the
topic of an unrelated device `ghost-dev` updates `cmd-0` exactly as if it
had arrived from `dev1`. -/
theorem c10_witness :
    ackPayload.command_id = some "cmd-0"
    ∧ ((handle_status dbSent 10 "ghost-farm" "ghost-room" "ghost-dev" ackPayload).commands
         = (handle_status dbSent 10 "farm1" "room1" "dev1" ackPayload).commands
       ∧ findCommand
           (handle_status dbSent 10 "ghost-farm" "ghost-room" "ghost-dev" ackPayload) "cmd-0"
         = (findCommand dbSent "cmd-0").map
             (fun c => { c with status := ackPayload.ack_status.getD "acked" })) :=
  ⟨rfl,
   (c10_correlation_by_command_id_only dbSent 10 "ghost-farm" "ghost-room" "ghost-dev"
      "farm1" "room1" "dev1" ackPayload).1,
   (c10_correlation_by_command_id_only dbSent 10 "ghost-farm" "ghost-room" "ghost-dev"
      "farm1" "room1" "dev1" ackPayload).2 "cmd-0" rfl⟩

end MushroomFarm
